import Mathlib

/-!
Verification of the "Lumina" front-end (a thin client around a hosted
generative-AI service): a shallow embedding of
`src/services/geminiService.ts` (`GeminiService`) and the run handlers of
`src/App.tsx`, with theorems checking the natural-language specification
against this embedding.

Remote effects (the API call, `fetch`, `URL.createObjectURL`,
`window.aistudio`) are modelled as explicit parameters: the request a
method builds is returned as data, and the remote's answer (a response, an
operation stream, fetched bytes) is an input.
-/

/-! ## Data model (from `types.ts`) -/

/-- `ImageSize = '1K' | '2K' | '4K'`. -/
inductive ImageSize
  | s1K
  | s2K
  | s4K
  deriving DecidableEq, Repr

/-- `AspectRatio = '1:1' | '3:4' | '4:3' | '9:16' | '16:9'` (the TS union
type `AspectRatio`). -/
inductive Aspect
  | a1x1
  | a3x4
  | a4x3
  | a9x16
  | a16x9
  deriving DecidableEq, Repr

/-- `ToolType` enum. -/
inductive ToolType
  | GENERATE
  | EDIT
  | ANIMATE
  | HISTORY
  deriving DecidableEq, Repr

/-- The `'image' | 'video'` tag of a `GeneratedAsset`. -/
inductive AssetType
  | image
  | video
  deriving DecidableEq, Repr

/-- `GeneratedAsset` interface. -/
structure GeneratedAsset where
  id : String
  type : AssetType
  url : String
  prompt : String
  timestamp : Nat
  deriving DecidableEq, Repr

/-! ## Request and response shapes (from the `@google/genai` call sites) -/

/-- A request part: `{ text }` or `{ inlineData: { data, mimeType } }`.
The `data` is an `Option` because `s.split(',')[1]` is `undefined` when
`s` has no comma. -/
inductive ReqPart
  | text (t : String)
  | inlineData (data : Option String) (mimeType : String)
  deriving DecidableEq, Repr

/-- The `imageConfig` object of `generateImage`: `aspectRatio` always,
`imageSize` only spread in for high resolutions. -/
structure ImageConfig where
  aspectRatio : Aspect
  imageSize : Option ImageSize
  deriving DecidableEq, Repr

/-- The `generateContent` request built by `generateImage`. -/
structure GenImageRequest where
  model : String
  parts : List ReqPart
  config : ImageConfig
  deriving DecidableEq, Repr

/-- The `generateContent` request built by `editImage` (no config). -/
structure EditImageRequest where
  model : String
  parts : List ReqPart
  deriving DecidableEq, Repr

/-- `inlineData` of a response part. -/
structure InlineData where
  data : String
  mimeType : String
  deriving DecidableEq, Repr

/-- A response part; only its optional `inlineData` is read. -/
structure RespPart where
  inlineData : Option InlineData
  deriving DecidableEq, Repr

/-- `content` of a candidate. -/
structure Content where
  parts : List RespPart
  deriving DecidableEq, Repr

/-- A response candidate, with optional `content`. -/
structure Candidate where
  content : Option Content
  deriving DecidableEq, Repr

/-- A `GenerateContentResponse`, with optional `candidates`. -/
structure GenResponse where
  candidates : Option (List Candidate)
  deriving DecidableEq, Repr

/-- `response.candidates?.[0]?.content?.parts || []`. -/
def responseParts (r : GenResponse) : List RespPart :=
  match r.candidates with
  | none => []
  | some cs =>
    match cs.head? with
    | none => []
    | some c =>
      match c.content with
      | none => []
      | some ct => ct.parts

/-- The `for (const part of ...) if (part.inlineData) return ...` loop:
the `inlineData` of the first part that carries one. -/
def firstInline : List RespPart → Option InlineData
  | [] => none
  | p :: ps =>
    match p.inlineData with
    | some d => some d
    | none => firstInline ps

/-- JS `String.prototype.split(',')` on the character list: split into the
maximal comma-free segments (so `"a,b"` gives `["a","b"]`, `"abc"` gives
`["abc"]`, `""` gives `[""]`). -/
def splitCommaAux : List Char → List Char → List (List Char)
  | acc, [] => [acc.reverse]
  | acc, c :: cs =>
    if c = ',' then acc.reverse :: splitCommaAux [] cs
    else splitCommaAux (c :: acc) cs

/-- JS `s.split(',')` as a list of strings. -/
def splitComma (s : String) : List String :=
  (splitCommaAux [] s.data).map List.asString

/-- `s.split(',')[1]`: the second comma-separated segment, `undefined`
(`none`) when there is no comma. -/
def splitSecond (s : String) : Option String :=
  (splitComma s).get? 1

/-! ## `GeminiService.generateImage` -/

/-- The request `generateImage` sends: model selected by the
high-resolution test `size === '2K' || size === '4K'`, a single text part,
and an `imageConfig` with the aspect ratio and — only when high-res — the
`imageSize`. -/
def generateImageRequest (prompt : String) (size : ImageSize) (ar : Aspect) :
    GenImageRequest :=
  let isHighRes := size = ImageSize.s2K ∨ size = ImageSize.s4K
  { model := if isHighRes then "gemini-3-pro-image-preview" else "gemini-2.5-flash-image"
  , parts := [ReqPart.text prompt]
  , config :=
      { aspectRatio := ar
      , imageSize := if isHighRes then some size else none } }

/-- `GeminiService.generateImage`: builds the request, then scans the
response's first candidate's parts for inline data, returning the
`data:` URL or throwing `"No image data returned from model"`. The remote
response is the `resp` argument. -/
def GeminiService.generateImage (prompt : String) (size : ImageSize) (ar : Aspect)
    (resp : GenResponse) : GenImageRequest × Except String String :=
  let req := generateImageRequest prompt size ar
  match firstInline (responseParts resp) with
  | some d => (req, Except.ok ("data:image/png;base64," ++ d.data))
  | none => (req, Except.error "No image data returned from model")

/-! ## `GeminiService.editImage` -/

/-- The request `editImage` sends: two inline-data parts (the payload
after the comma of each data URL) and the blending instruction embedding
the user's prompt, to `gemini-2.5-flash-image`. -/
def editImageRequest (baseImageBase64 colorImageBase64 prompt : String) :
    EditImageRequest :=
  { model := "gemini-2.5-flash-image"
  , parts :=
      [ ReqPart.inlineData (splitSecond baseImageBase64) "image/png"
      , ReqPart.inlineData (splitSecond colorImageBase64) "image/png"
      , ReqPart.text
          ("Combine these two images. Use the first image as the subject and the second image\x27s color palette, style, and lighting. Details: "
            ++ prompt) ] }

/-- `GeminiService.editImage`: builds the blending request, then extracts
the first inline-data part of the response, throwing
`"No edited image data returned"` when there is none. -/
def GeminiService.editImage (baseImageBase64 colorImageBase64 prompt : String)
    (resp : GenResponse) : EditImageRequest × Except String String :=
  let req := editImageRequest baseImageBase64 colorImageBase64 prompt
  match firstInline (responseParts resp) with
  | some d => (req, Except.ok ("data:image/png;base64," ++ d.data))
  | none => (req, Except.error "No edited image data returned")

/-! ## `GeminiService.animateImage` -/

/-- `video` of a generated video: an optional `uri`. -/
structure VideoRef where
  uri : Option String
  deriving DecidableEq, Repr

/-- One entry of `generatedVideos`. -/
structure GeneratedVideo where
  video : Option VideoRef
  deriving DecidableEq, Repr

/-- The `response` of a finished video operation. -/
structure VideoOpResponse where
  generatedVideos : Option (List GeneratedVideo)
  deriving DecidableEq, Repr

/-- The long-running video operation handle: a `done` flag and, once
finished, a response. -/
structure Operation where
  done : Bool
  response : Option VideoOpResponse
  deriving DecidableEq, Repr

/-- The `generateVideos` request built by `animateImage`. -/
structure VideoRequest where
  model : String
  prompt : String
  imageBytes : Option String
  mimeType : String
  numberOfVideos : Nat
  resolution : String
  aspectRatio : Aspect
  deriving DecidableEq, Repr

/-- Observable client actions during `animateImage` after the initial
call: sleeping, re-querying the operation, and fetching a result URI. -/
inductive AnimEvent
  | wait (ms : Nat)
  | getOperation
  | readUri (url : String)
  deriving DecidableEq, Repr

/-- The request `animateImage` sends to `generateVideos`: the prompt
(defaulted when empty, JS `prompt || '...'`), the data-URL payload, and a
config whose aspect ratio is clamped to `'9:16'` or `'16:9'`. -/
def animateVideoRequest (imageBase64 prompt : String) (ar : Aspect) :
    VideoRequest :=
  let validAspectRatio := if ar = Aspect.a9x16 then Aspect.a9x16 else Aspect.a16x9
  { model := "veo-3.1-fast-generate-preview"
  , prompt := if prompt = "" then "Cinematic animation of this scene" else prompt
  , imageBytes := splitSecond imageBase64
  , mimeType := "image/png"
  , numberOfVideos := 1
  , resolution := "1080p"
  , aspectRatio := validAspectRatio }

/-- The `while (!operation.done)` poll loop: each iteration waits 10000 ms
and calls `getVideosOperation` (modelled by `next`). `fuel` bounds the
number of iterations (the source loop is unbounded); the result is the
trace of events and the operation at exit, or `none` when the fuel runs
out before `done` is set. -/
def pollLoop (next : Operation → Operation) : Nat → Operation →
    Option (List AnimEvent × Operation)
  | 0, op => if op.done then some ([], op) else none
  | fuel + 1, op =>
    if op.done then some ([], op)
    else
      (pollLoop next fuel (next op)).map
        (fun tr => (AnimEvent.wait 10000 :: AnimEvent.getOperation :: tr.1, tr.2))

/-- `operation.response?.generatedVideos?.[0]?.video?.uri`. -/
def videoUri (op : Operation) : Option String :=
  match op.response with
  | none => none
  | some r =>
    match r.generatedVideos with
    | none => none
    | some vs =>
      match vs.head? with
      | none => none
      | some gv =>
        match gv.video with
        | none => none
        | some v => v.uri

/-- The post-loop tail of `animateImage`: `if (!downloadLink) throw` — a
JS falsiness test, so a missing link and an empty-string link both throw
`"Video generation failed"`; otherwise fetch `uri&key=apiKey` (modelled by
`fetchBlob`) and return an object URL for the blob (modelled by
`createObjectURL`). -/
def animateFinish {β : Type} (apiKey : String) (fetchBlob : String → β)
    (createObjectURL : β → String) (op : Operation) :
    List AnimEvent × Except String String :=
  match videoUri op with
  | none => ([], Except.error "Video generation failed")
  | some uri =>
      if uri = "" then ([], Except.error "Video generation failed")
      else
        ([AnimEvent.readUri (uri ++ "&key=" ++ apiKey)],
          Except.ok (createObjectURL (fetchBlob (uri ++ "&key=" ++ apiKey))))

/-- `GeminiService.animateImage`: builds the video request, polls the
operation returned by the remote (`startOp`, advanced by `next`) until
`done`, then downloads the result. Returns the request, and — when the
fuel suffices — the full event trace and the outcome. -/
def GeminiService.animateImage {β : Type} (apiKey : String)
    (fetchBlob : String → β) (createObjectURL : β → String)
    (next : Operation → Operation) (fuel : Nat)
    (imageBase64 prompt : String) (ar : Aspect) (startOp : Operation) :
    VideoRequest × Option (List AnimEvent × Except String String) :=
  let req := animateVideoRequest imageBase64 prompt ar
  match pollLoop next fuel startOp with
  | none => (req, none)
  | some (tr, op) =>
    let fin := animateFinish apiKey fetchBlob createObjectURL op
    (req, some (tr ++ fin.1, fin.2))

/-! ## The `App.tsx` run handlers -/

/-- JS falsiness of a `string | null` state value (`null` and `''` are
falsy). -/
def falsy : Option String → Bool
  | none => true
  | some s => s = ""

/-- A call made to `GeminiService` by a handler. -/
inductive ServiceCall
  | generateImage (prompt : String) (size : ImageSize) (ar : Aspect)
  | editImage (base color prompt : String)
  | animateImage (image prompt : String) (ar : Aspect)
  deriving DecidableEq, Repr

/-- The component state of `App` that the handlers read and write. -/
structure AppState where
  activeTool : ToolType
  loading : Bool
  loadingMessage : String
  error : Option String
  assets : List GeneratedAsset
  prompt : String
  size : ImageSize
  aspectRatio : Aspect
  baseImage : Option String
  colorImage : Option String
  animImage : Option String
  deriving DecidableEq, Repr

/-- `addAsset`: prepend a fresh asset and switch to the history tab. The
random id and `Date.now()` are the `nid`/`now` parameters. -/
def addAsset (nid : String) (now : Nat) (url : String) (t : AssetType)
    (assetPrompt : String) (s : AppState) : AppState :=
  { s with
    assets := { id := nid, type := t, url := url, prompt := assetPrompt
              , timestamp := now } :: s.assets
  , activeTool := ToolType.HISTORY }

/-- `runGeneration`. The outcome of the awaited `GeminiService` call is
the `r` argument (`Except.error msg` models a thrown error of message
`msg`); `checkApiKey`/`openSelectKey` touch no component state. Returns
the final state and the list of service calls made. -/
def runGeneration (nid : String) (now : Nat) (r : Except String String)
    (s : AppState) : AppState × List ServiceCall :=
  if s.prompt = "" then ({ s with error := some "Please enter a prompt" }, [])
  else
    let s1 := { s with
      loading := true, loadingMessage := "Synthesizing your imagination...", error := none }
    let call := ServiceCall.generateImage s.prompt s.size s.aspectRatio
    match r with
    | Except.ok url =>
        ({ addAsset nid now url AssetType.image s.prompt s1 with loading := false },
          [call])
    | Except.error msg =>
        ({ s1 with
            error := some (if msg = "" then "Generation failed" else msg)
          , loading := false }, [call])

/-- `runEditing` (guard: both images must be truthy; asset prompt defaults
to `'Styled Blend'`). -/
def runEditing (nid : String) (now : Nat) (r : Except String String)
    (s : AppState) : AppState × List ServiceCall :=
  if falsy s.baseImage || falsy s.colorImage then
    ({ s with error := some "Please upload both images" }, [])
  else
    let s1 := { s with
      loading := true, loadingMessage := "Blending visuals and styles...", error := none }
    let call := ServiceCall.editImage (s.baseImage.getD "") (s.colorImage.getD "")
      s.prompt
    match r with
    | Except.ok url =>
        ({ addAsset nid now url AssetType.image
            (if s.prompt = "" then "Styled Blend" else s.prompt) s1 with
            loading := false }, [call])
    | Except.error msg =>
        ({ s1 with
            error := some (if msg = "" then "Editing failed" else msg)
          , loading := false }, [call])

/-- `runAnimation` (guard: the animate image must be truthy; asset prompt
defaults to `'Cinematic Motion'`). -/
def runAnimation (nid : String) (now : Nat) (r : Except String String)
    (s : AppState) : AppState × List ServiceCall :=
  if falsy s.animImage then
    ({ s with error := some "Please upload an image to animate" }, [])
  else
    let s1 := { s with
      loading := true, loadingMessage := "Breathing life into your pixels (this may take a minute)...", error := none }
    let call := ServiceCall.animateImage (s.animImage.getD "") s.prompt
      s.aspectRatio
    match r with
    | Except.ok url =>
        ({ addAsset nid now url AssetType.video
            (if s.prompt = "" then "Cinematic Motion" else s.prompt) s1 with
            loading := false }, [call])
    | Except.error msg =>
        ({ s1 with
            error := some (if msg = "" then "Animation failed" else msg)
          , loading := false }, [call])

/-! ## Concrete example values -/

/-- A finished operation carrying a download URI. -/
def doneOpEx : Operation :=
  { done := true
  , response := some
      { generatedVideos := some [{ video := some { uri := some "http://dl?a=1" } }] } }

/-- A finished operation whose first generated video has an empty-string
URI. -/
def emptyUriOpEx : Operation :=
  { done := true
  , response := some
      { generatedVideos := some [{ video := some { uri := some "" } }] } }

/-- An `App` state whose inputs are all empty or missing. -/
def exEmptyState : AppState :=
  { activeTool := ToolType.GENERATE, loading := false, loadingMessage := ""
  , error := none, assets := [], prompt := "", size := ImageSize.s1K
  , aspectRatio := Aspect.a1x1, baseImage := none, colorImage := none
  , animImage := none }

/-- An `App` state that passes every handler's input guard. -/
def exGuardState : AppState :=
  { activeTool := ToolType.GENERATE, loading := false, loadingMessage := ""
  , error := none, assets := [], prompt := "cat", size := ImageSize.s1K
  , aspectRatio := Aspect.a1x1, baseImage := some "data:,b"
  , colorImage := some "data:,c", animImage := some "data:,a" }

/-! ## Helper lemmas -/

/-- The response scan returns `none` exactly when no part carries inline
data. -/
theorem firstInline_eq_none_iff (l : List RespPart) :
    firstInline l = none ↔ ∀ q ∈ l, q.inlineData = none := by
  induction l with
  | nil => simp [firstInline]
  | cons p ps ih =>
    cases hp : p.inlineData with
    | some d => simp [firstInline, hp]
    | none => simp [firstInline, hp, ih]

/-- The response scan picks the inline data of the first part carrying
one. -/
theorem firstInline_append_of (l₁ l₂ : List RespPart) (q : RespPart)
    (d : InlineData) (h : ∀ x ∈ l₁, x.inlineData = none)
    (hq : q.inlineData = some d) :
    firstInline (l₁ ++ q :: l₂) = some d := by
  induction l₁ with
  | nil => simp [firstInline, hq]
  | cons p ps ih =>
    have hp : p.inlineData = none := h p (by simp)
    simpa [firstInline, hp] using ih (fun x hx => h x (by simp [hx]))

/-- `pollLoop` with the first `done` index at `N`: with fuel at least `N`
it runs exactly `N` iterations (each a 10-second wait and one
`getVideosOperation`) and exits with the `N`-th operation. -/
theorem pollLoop_of_first_done (next : Operation → Operation) :
    ∀ (N : Nat) (op : Operation) (fuel : Nat),
      (∀ i < N, (next^[i] op).done = false) →
      (next^[N] op).done = true → N ≤ fuel →
      pollLoop next fuel op
        = some ((List.replicate N
            [AnimEvent.wait 10000, AnimEvent.getOperation]).flatten, next^[N] op) := by
  intro N
  induction N with
  | zero =>
    intro op fuel _ hdone _
    rw [Function.iterate_zero_apply] at hdone
    cases fuel <;> simp [pollLoop, hdone]
  | succ N ih =>
    intro op fuel hlt hdone hle
    have h0 : op.done = false := by simpa using hlt 0 (Nat.succ_pos N)
    obtain ⟨f, rfl⟩ : ∃ f, fuel = f + 1 := ⟨fuel - 1, by omega⟩
    have hrec := ih (next op) f
      (fun i hi => by simpa [Function.iterate_succ_apply] using hlt (i + 1) (by omega))
      (by simpa [Function.iterate_succ_apply] using hdone)
      (by omega)
    simp [pollLoop, h0, hrec, Function.iterate_succ_apply, List.replicate_succ]

/-! ## Claims about request building -/

/-- C1: the model named in the generation request is
`gemini-3-pro-image-preview` exactly when the size is `2K` or `4K`, and
`gemini-2.5-flash-image` exactly when it is `1K`. -/
theorem generateImage_model_c1 (p : String) (sz : ImageSize) (ar : Aspect) :
    ((generateImageRequest p sz ar).model = "gemini-3-pro-image-preview"
      ↔ sz = ImageSize.s2K ∨ sz = ImageSize.s4K)
    ∧ ((generateImageRequest p sz ar).model = "gemini-2.5-flash-image"
      ↔ sz = ImageSize.s1K) := by
  cases sz <;> simp [generateImageRequest]

/-- C1 at a concrete input: a 4K request goes to the pro model. -/
theorem generateImage_model_c1_witness :
    (generateImageRequest "a cat" ImageSize.s4K Aspect.a16x9).model
      = "gemini-3-pro-image-preview" :=
  (generateImage_model_c1 "a cat" ImageSize.s4K Aspect.a16x9).1.mpr (Or.inr rfl)

/-- C10: the request's `imageConfig` carries an `imageSize` field exactly
when the size is `2K` or `4K`, whose value is then the given size; at `1K`
the request goes to `gemini-2.5-flash-image` with no `imageSize`. -/
theorem generateImage_imageSize_c10 (p : String) (sz : ImageSize) (ar : Aspect) :
    ((generateImageRequest p sz ar).config.imageSize ≠ none
      ↔ sz = ImageSize.s2K ∨ sz = ImageSize.s4K)
    ∧ (∀ v, (generateImageRequest p sz ar).config.imageSize = some v → v = sz)
    ∧ (sz = ImageSize.s1K →
        (generateImageRequest p sz ar).model = "gemini-2.5-flash-image"
        ∧ (generateImageRequest p sz ar).config.imageSize = none) := by
  cases sz <;> simp [generateImageRequest]

/-- C10 at concrete inputs: the 2K request carries `imageSize = 2K`, the
1K request carries none. -/
theorem generateImage_imageSize_c10_witness :
    (generateImageRequest "p" ImageSize.s2K Aspect.a1x1).config.imageSize
        = some ImageSize.s2K
    ∧ (generateImageRequest "p" ImageSize.s1K Aspect.a1x1).config.imageSize
        = none :=
  ⟨rfl, ((generateImage_imageSize_c10 "p" ImageSize.s1K Aspect.a1x1).2.2 rfl).2⟩

/-- C5: `generateImage` forwards the UI aspect ratio verbatim into
`imageConfig`, while `animateImage` forwards `9:16` verbatim and maps
every other value to `16:9`. -/
theorem aspect_forwarding_c5 (p img vp : String) (sz : ImageSize) (ar : Aspect) :
    (generateImageRequest p sz ar).config.aspectRatio = ar
    ∧ (animateVideoRequest img vp Aspect.a9x16).aspectRatio = Aspect.a9x16
    ∧ (ar ≠ Aspect.a9x16 →
        (animateVideoRequest img vp ar).aspectRatio = Aspect.a16x9) := by
  refine ⟨rfl, rfl, fun h => ?_⟩
  cases ar <;> simp_all [animateVideoRequest]

/-- C5 at a concrete input: the `4:3` UI value is forwarded verbatim by
`generateImage` and clamped to `16:9` by `animateImage`. -/
theorem aspect_forwarding_c5_witness :
    (generateImageRequest "p" ImageSize.s1K Aspect.a4x3).config.aspectRatio
        = Aspect.a4x3
    ∧ (animateVideoRequest "i" "p" Aspect.a4x3).aspectRatio = Aspect.a16x9 :=
  ⟨(aspect_forwarding_c5 "p" "i" "p" ImageSize.s1K Aspect.a4x3).1,
    (aspect_forwarding_c5 "p" "i" "p" ImageSize.s1K Aspect.a4x3).2.2 (by decide)⟩

/-- C7: the blending request goes to `gemini-2.5-flash-image` and holds
exactly three parts in order: the base image's payload as inline data, the
style image's payload as inline data, and the instruction that makes the
first image the subject, takes color palette, style and lighting from the
second, and embeds the user's prompt. -/
theorem editImage_request_c7 (base color p pb pc : String)
    (hb : splitSecond base = some pb) (hc : splitSecond color = some pc) :
    (editImageRequest base color p).model = "gemini-2.5-flash-image"
    ∧ (editImageRequest base color p).parts
        = [ ReqPart.inlineData (some pb) "image/png"
          , ReqPart.inlineData (some pc) "image/png"
          , ReqPart.text
              ("Combine these two images. Use the first image as the subject and the second image\x27s color palette, style, and lighting. Details: "
                ++ p) ] := by
  simp [editImageRequest, hb, hc]

/-- C7 at concrete data URLs. -/
theorem editImage_request_c7_witness :
    splitSecond "data:image/png;base64,QUJD" = some "QUJD"
    ∧ (editImageRequest "data:image/png;base64,QUJD" "data:image/png;base64,REVG"
        "warm light").parts
      = [ ReqPart.inlineData (some "QUJD") "image/png"
        , ReqPart.inlineData (some "REVG") "image/png"
        , ReqPart.text
            ("Combine these two images. Use the first image as the subject and the second image\x27s color palette, style, and lighting. Details: "
              ++ "warm light") ] :=
  ⟨by decide, (editImage_request_c7 "data:image/png;base64,QUJD"
    "data:image/png;base64,REVG" "warm light" "QUJD" "REVG"
    (by decide) (by decide)).2⟩

/-! ## Claims about response decoding -/

/-- C3: whenever the response's scanned parts contain a part carrying
inline data, both `generateImage` and `editImage` return the data URL of
the first such part, prefixed with `data:image/png;base64,`. -/
theorem inline_decode_c3 (p : String) (sz : ImageSize) (ar : Aspect)
    (b c ep : String) (resp : GenResponse) (l₁ l₂ : List RespPart)
    (q : RespPart) (d : InlineData)
    (hsplit : responseParts resp = l₁ ++ q :: l₂)
    (hnone : ∀ x ∈ l₁, x.inlineData = none)
    (hq : q.inlineData = some d) :
    (GeminiService.generateImage p sz ar resp).2
        = Except.ok ("data:image/png;base64," ++ d.data)
    ∧ (GeminiService.editImage b c ep resp).2
        = Except.ok ("data:image/png;base64," ++ d.data) := by
  have hfi : firstInline (responseParts resp) = some d := by
    rw [hsplit]; exact firstInline_append_of l₁ l₂ q d hnone hq
  constructor <;>
    simp [GeminiService.generateImage, GeminiService.editImage, hfi]

/-- C3 at a concrete response whose second part is the first to carry
inline data. -/
theorem inline_decode_c3_witness :
    (GeminiService.generateImage "p" ImageSize.s1K Aspect.a1x1
      { candidates := some [ { content := some { parts :=
          [ { inlineData := none }
          , { inlineData := some { data := "QUJD", mimeType := "image/png" } } ] } } ] }).2
      = Except.ok "data:image/png;base64,QUJD" := by
  have h := (inline_decode_c3 "p" ImageSize.s1K Aspect.a1x1 "b" "c" "e"
    { candidates := some [ { content := some { parts :=
        [ { inlineData := none }
        , { inlineData := some { data := "QUJD", mimeType := "image/png" } } ] } } ] }
    [{ inlineData := none }] []
    { inlineData := some { data := "QUJD", mimeType := "image/png" } }
    { data := "QUJD", mimeType := "image/png" }
    rfl (by decide) rfl).1
  simpa using h

/-- C4: `generateImage` and `editImage` throw exactly when no scanned part
of the response's first candidate carries inline data, with the fixed
messages `No image data returned from model` and
`No edited image data returned`; otherwise they return a URL. -/
theorem inline_error_c4 (p : String) (sz : ImageSize) (ar : Aspect)
    (b c ep : String) (resp : GenResponse) :
    ((∃ e, (GeminiService.generateImage p sz ar resp).2 = Except.error e)
      ↔ ∀ q ∈ responseParts resp, q.inlineData = none)
    ∧ (∀ e, (GeminiService.generateImage p sz ar resp).2 = Except.error e →
        e = "No image data returned from model")
    ∧ ((∃ e, (GeminiService.editImage b c ep resp).2 = Except.error e)
      ↔ ∀ q ∈ responseParts resp, q.inlineData = none)
    ∧ (∀ e, (GeminiService.editImage b c ep resp).2 = Except.error e →
        e = "No edited image data returned")
    ∧ ((¬ ∀ q ∈ responseParts resp, q.inlineData = none) →
        (∃ u, (GeminiService.generateImage p sz ar resp).2 = Except.ok u)
        ∧ ∃ u, (GeminiService.editImage b c ep resp).2 = Except.ok u) := by
  rw [← firstInline_eq_none_iff]
  cases hfi : firstInline (responseParts resp) <;>
    simp [GeminiService.generateImage, GeminiService.editImage, hfi]

/-- C4 at a concrete response with no candidates: both services throw
their fixed messages. -/
theorem inline_error_c4_witness :
    (GeminiService.generateImage "p" ImageSize.s1K Aspect.a1x1
        { candidates := none }).2
      = Except.error "No image data returned from model" := by
  have h := (inline_error_c4 "p" ImageSize.s1K Aspect.a1x1 "b" "c" "e"
    { candidates := none }).1.mpr (by simp [responseParts])
  obtain ⟨e, he⟩ := h
  have := (inline_error_c4 "p" ImageSize.s1K Aspect.a1x1 "b" "c" "e"
    { candidates := none }).2.1 e he
  rw [he, this]

/-! ## Claims about the video poll loop and download -/

/-- C2: with `N` the first index at which the polled operation reports
`done`, the loop performs exactly `N` iterations, each a fixed 10000 ms
wait followed by one `getVideosOperation`; the operation is not `done` at
any earlier poll, the loop exits with the first `done` operation, no
result URI is read inside the loop, and in the full `animateImage` trace
every URI read comes after the loop's trace, once `done` is already
true. -/
theorem animate_poll_c2 {β : Type} (apiKey : String) (fetchBlob : String → β)
    (createObjectURL : β → String) (next : Operation → Operation)
    (op0 : Operation) (h : ∃ n, (next^[n] op0).done = true) (fuel : Nat)
    (hfuel : Nat.find h ≤ fuel) (img p : String) (ar : Aspect) :
    pollLoop next fuel op0
      = some ((List.replicate (Nat.find h)
          [AnimEvent.wait 10000, AnimEvent.getOperation]).flatten,
          next^[Nat.find h] op0)
    ∧ (∀ i < Nat.find h, (next^[i] op0).done = false)
    ∧ (next^[Nat.find h] op0).done = true
    ∧ (∀ u, AnimEvent.readUri u ∉ (List.replicate (Nat.find h)
          [AnimEvent.wait 10000, AnimEvent.getOperation]).flatten)
    ∧ (∀ tr r, (GeminiService.animateImage apiKey fetchBlob createObjectURL
          next fuel img p ar op0).2 = some (tr, r) →
        ∃ rest, tr = (List.replicate (Nat.find h)
            [AnimEvent.wait 10000, AnimEvent.getOperation]).flatten ++ rest
          ∧ ∀ u, AnimEvent.readUri u ∈ rest →
              (next^[Nat.find h] op0).done = true) := by
  have hlt : ∀ i < Nat.find h, (next^[i] op0).done = false := by
    intro i hi
    exact Bool.eq_false_iff.mpr (Nat.find_min h hi)
  have hdone : (next^[Nat.find h] op0).done = true := Nat.find_spec h
  have hmain := pollLoop_of_first_done next (Nat.find h) op0 fuel hlt hdone hfuel
  refine ⟨hmain, hlt, hdone, ?_, ?_⟩
  · intro u hu
    rw [List.mem_flatten] at hu
    obtain ⟨l, hl, hul⟩ := hu
    rw [List.mem_replicate] at hl
    rw [hl.2] at hul
    simp at hul
  · intro tr r htr
    rw [GeminiService.animateImage] at htr
    rw [hmain] at htr
    simp only [Option.some.injEq, Prod.mk.injEq] at htr
    exact ⟨(animateFinish apiKey fetchBlob createObjectURL
      (next^[Nat.find h] op0)).1, htr.1.symm, fun u _ => hdone⟩

/-- C2 at a concrete stream: one not-yet-done poll, then done. -/
theorem animate_poll_c2_witness :
    pollLoop (fun _ => ({ done := true, response := none } : Operation)) 1
        { done := false, response := none }
      = some ([AnimEvent.wait 10000, AnimEvent.getOperation],
          { done := true, response := none }) := by
  have h : ∃ n, ((fun _ => ({ done := true, response := none } : Operation))^[n]
      ({ done := false, response := none } : Operation)).done = true := ⟨1, rfl⟩
  have hN : Nat.find h = 1 := by
    rw [Nat.find_eq_iff]
    exact ⟨rfl, by intro m hm; interval_cases m; decide⟩
  have hmain := (animate_poll_c2 "key" (fun _ => (0 : Nat)) (fun _ => "blob")
    (fun _ => ({ done := true, response := none } : Operation))
    { done := false, response := none } h 1 (le_of_eq hN) "img" "p"
    Aspect.a1x1).1
  rw [hN] at hmain
  simpa using hmain

/-- C6 as stated is false: `if (!downloadLink) throw` is a JS falsiness
test, so at a done operation whose first generated video carries the
empty-string URI the code throws `Video generation failed` even though a
URI is present, and nothing is fetched. -/
theorem animate_finish_c6_counterexample :
    emptyUriOpEx.done = true
    ∧ videoUri emptyUriOpEx = some ""
    ∧ (animateFinish "KEY" (fun u => u.length)
        (fun n => String.replicate n 'x') emptyUriOpEx).2
      = Except.error "Video generation failed"
    ∧ (animateFinish "KEY" (fun u => u.length)
        (fun n => String.replicate n 'x') emptyUriOpEx).1 = [] := by
  exact ⟨rfl, rfl, rfl, rfl⟩

/-- C6 (amended): once the operation is done, `animateImage`'s tail throws
`Video generation failed` exactly when the first generated video's URI is
missing or empty (JS-falsy); when a non-empty URI is present it fetches
the URI with the API key appended and returns an object URL for the
downloaded bytes. -/
theorem animate_finish_c6 {β : Type} (apiKey : String) (fetchBlob : String → β)
    (createObjectURL : β → String) (op : Operation) (_hdone : op.done = true) :
    ((animateFinish apiKey fetchBlob createObjectURL op).2
        = Except.error "Video generation failed"
      ↔ videoUri op = none ∨ videoUri op = some "")
    ∧ (∀ e, (animateFinish apiKey fetchBlob createObjectURL op).2
        = Except.error e → e = "Video generation failed")
    ∧ (∀ uri, videoUri op = some uri → uri ≠ "" →
        (animateFinish apiKey fetchBlob createObjectURL op).2
          = Except.ok (createObjectURL (fetchBlob (uri ++ "&key=" ++ apiKey)))
        ∧ (animateFinish apiKey fetchBlob createObjectURL op).1
          = [AnimEvent.readUri (uri ++ "&key=" ++ apiKey)]) := by
  cases hv : videoUri op with
  | none => simp [animateFinish, hv]
  | some uri =>
    by_cases h : uri = "" <;> simp [animateFinish, hv, h]

/-- C6 (amended) at a concrete done operation carrying a non-empty URI. -/
theorem animate_finish_c6_witness :
    (animateFinish "KEY" (fun u => u.length) (fun n => String.replicate n 'x')
        doneOpEx).2
      = Except.ok (String.replicate ("http://dl?a=1&key=KEY").length 'x') :=
  ((animate_finish_c6 "KEY" (fun u => u.length)
    (fun n => String.replicate n 'x') doneOpEx
    rfl).2.2 "http://dl?a=1" rfl (by decide)).1

/-! ## Claims about the run handlers -/

/-- C8: each handler guards its required inputs before any service call:
with an empty prompt (`runGeneration`), a missing uploaded image
(`runEditing`, `runAnimation`), the handler sets its guard message, makes
no service call, and leaves the loading flag and the assets list
unchanged. -/
theorem run_guards_c8 (s : AppState) (nid : String) (now : Nat)
    (r : Except String String) :
    (s.prompt = "" →
      (runGeneration nid now r s).1.error = some "Please enter a prompt"
      ∧ (runGeneration nid now r s).2 = []
      ∧ (runGeneration nid now r s).1.loading = s.loading
      ∧ (runGeneration nid now r s).1.assets = s.assets)
    ∧ (s.baseImage = none ∨ s.colorImage = none →
      (runEditing nid now r s).1.error = some "Please upload both images"
      ∧ (runEditing nid now r s).2 = []
      ∧ (runEditing nid now r s).1.loading = s.loading
      ∧ (runEditing nid now r s).1.assets = s.assets)
    ∧ (s.animImage = none →
      (runAnimation nid now r s).1.error = some "Please upload an image to animate"
      ∧ (runAnimation nid now r s).2 = []
      ∧ (runAnimation nid now r s).1.loading = s.loading
      ∧ (runAnimation nid now r s).1.assets = s.assets) := by
  refine ⟨fun h => ?_, fun h => ?_, fun h => ?_⟩
  · simp [runGeneration, h]
  · rcases h with h | h <;> simp [runEditing, falsy, h]
  · simp [runAnimation, falsy, h]

/-- C8 at a concrete state with every input missing. -/
theorem run_guards_c8_witness :
    (runGeneration "i" 0 (Except.ok "u") exEmptyState).1.error
        = some "Please enter a prompt"
    ∧ (runGeneration "i" 0 (Except.ok "u") exEmptyState).2 = []
    ∧ (runAnimation "i" 0 (Except.ok "u") exEmptyState).2 = [] :=
  ⟨((run_guards_c8 exEmptyState "i" 0 (Except.ok "u")).1 rfl).1,
    ((run_guards_c8 exEmptyState "i" 0 (Except.ok "u")).1 rfl).2.1,
    ((run_guards_c8 exEmptyState "i" 0 (Except.ok "u")).2.2 rfl).2.1⟩

/-- C9 as stated is false: a thrown error with an empty message is
replaced by the handler's default message, so the error state does not
hold the thrown error's message. -/
theorem run_c9_counterexample :
    exGuardState.prompt ≠ ""
    ∧ (runGeneration "id0" 7 (Except.error "") exGuardState).1.error ≠ some ""
    ∧ (runGeneration "id0" 7 (Except.error "") exGuardState).1.error
        = some "Generation failed" := by
  refine ⟨by decide, ?_, ?_⟩ <;> decide

/-- C9 (amended): past the guard, the loading flag is false when the
handler finishes, whether the call succeeded or threw; on success exactly
one new asset — with the returned URL, the matching type, and the recorded
prompt (the current prompt, defaulted to `Styled Blend` / `Cinematic
Motion` by `runEditing` / `runAnimation` when empty) — is prepended and
the active tool switches to HISTORY; on failure assets and active tool are
unchanged and the error state holds the thrown message, defaulted to
`Generation failed` / `Editing failed` / `Animation failed` when that
message is empty. -/
theorem run_complete_c9_amended (s : AppState) (nid : String) (now : Nat)
    (url msg : String) :
    (s.prompt ≠ "" →
        (runGeneration nid now (Except.ok url) s).1.loading = false
        ∧ (runGeneration nid now (Except.ok url) s).1.assets
            = { id := nid, type := AssetType.image, url := url
              , prompt := s.prompt, timestamp := now } :: s.assets
        ∧ (runGeneration nid now (Except.ok url) s).1.activeTool
            = ToolType.HISTORY
        ∧ (runGeneration nid now (Except.error msg) s).1.loading = false
        ∧ (runGeneration nid now (Except.error msg) s).1.assets = s.assets
        ∧ (runGeneration nid now (Except.error msg) s).1.activeTool
            = s.activeTool
        ∧ (runGeneration nid now (Except.error msg) s).1.error
            = some (if msg = "" then "Generation failed" else msg))
    ∧ (falsy s.baseImage = false → falsy s.colorImage = false →
        (runEditing nid now (Except.ok url) s).1.loading = false
        ∧ (runEditing nid now (Except.ok url) s).1.assets
            = { id := nid, type := AssetType.image, url := url
              , prompt := if s.prompt = "" then "Styled Blend" else s.prompt
              , timestamp := now } :: s.assets
        ∧ (runEditing nid now (Except.ok url) s).1.activeTool
            = ToolType.HISTORY
        ∧ (runEditing nid now (Except.error msg) s).1.loading = false
        ∧ (runEditing nid now (Except.error msg) s).1.assets = s.assets
        ∧ (runEditing nid now (Except.error msg) s).1.activeTool = s.activeTool
        ∧ (runEditing nid now (Except.error msg) s).1.error
            = some (if msg = "" then "Editing failed" else msg))
    ∧ (falsy s.animImage = false →
        (runAnimation nid now (Except.ok url) s).1.loading = false
        ∧ (runAnimation nid now (Except.ok url) s).1.assets
            = { id := nid, type := AssetType.video, url := url
              , prompt := if s.prompt = "" then "Cinematic Motion" else s.prompt
              , timestamp := now } :: s.assets
        ∧ (runAnimation nid now (Except.ok url) s).1.activeTool
            = ToolType.HISTORY
        ∧ (runAnimation nid now (Except.error msg) s).1.loading = false
        ∧ (runAnimation nid now (Except.error msg) s).1.assets = s.assets
        ∧ (runAnimation nid now (Except.error msg) s).1.activeTool
            = s.activeTool
        ∧ (runAnimation nid now (Except.error msg) s).1.error
            = some (if msg = "" then "Animation failed" else msg)) := by
  refine ⟨fun h => ?_, fun hb hc => ?_, fun h => ?_⟩
  · simp [runGeneration, addAsset, h]
  · simp [runEditing, addAsset, hb, hc]
  · simp [runAnimation, addAsset, h]

/-- C9 (amended) at a concrete guarded state: a successful generation
prepends the asset and a failing one records the message. -/
theorem run_complete_c9_witness :
    (runGeneration "id1" 7 (Except.ok "data:u") exGuardState).1.assets
        = [{ id := "id1", type := AssetType.image, url := "data:u"
           , prompt := "cat", timestamp := 7 }]
    ∧ (runGeneration "id1" 7 (Except.error "boom") exGuardState).1.error
        = some "boom" := by
  have h := (run_complete_c9_amended exGuardState "id1" 7 "data:u" "boom").1
    (by decide)
  exact ⟨h.2.1, by rw [h.2.2.2.2.2.2]; decide⟩
